import Mathlib

/-!
Shallow embedding of the mail-prioritiser classification core
(`backend/rules.py`, `backend/process_and_classify.py`, `backend/llm_client.py`).

Modelling choices:
* Python floats are modelled by exact rationals (`Rat`); every score constant
  (0.3, 0.45, ...) is a small decimal fraction, written as an exact fraction.
* Python `str.lower`/`str.strip` are modelled over the character list with
  ASCII lowering and Python's whitespace set.
* The regex-based `contains_date_near` is kept abstract as a boolean-valued
  parameter `dateNear`; every theorem quantifies over it, so the results hold
  for the real date matcher as a special case.
* Python `None` default arguments become `Option` arguments (`none` = not
  supplied); Python raising `TypeError` becomes `Except.error`.
-/

namespace MailPrioritiser

/-- Python whitespace characters (the `\s` class used by `re.split`/`str.strip`). -/
def pySpace (c : Char) : Bool :=
  c = ' ' || c = '\t' || c = '\n' || c = '\r' || c = Char.ofNat 11 || c = Char.ofNat 12

/-- ASCII lowercase of a string, as Python `str.lower` behaves on the ASCII
inputs used throughout the rules engine. -/
def pyLower (s : String) : String :=
  String.mk (s.toList.map Char.toLower)

/-- Python `str.strip()`: drop whitespace from both ends. -/
def pyStrip (s : String) : String :=
  String.mk (((s.toList.dropWhile pySpace).reverse.dropWhile pySpace).reverse)

/-- Is `pat` a contiguous sublist of `s`?  (Python `pat in s` on strings.) -/
def isSubListOf (pat : List Char) : List Char → Bool
  | [] => pat.isEmpty
  | c :: rest => pat.isPrefixOf (c :: rest) || isSubListOf pat rest

/-- Python `sub in s` substring test. -/
def containsSubstr (s sub : String) : Bool :=
  isSubListOf sub.toList s.toList

/-- Splitter for `re.split(r"[,\s]+", ...)`: a run of separators is one split
point; a leading/trailing run contributes an empty field.  `inSep` records
whether we are inside a separator run. -/
def splitSepAux : List Char → List Char → Bool → List (List Char)
  | [], acc, false => [acc.reverse]
  | [], _, true => [[]]
  | c :: rest, acc, false =>
    if pySpace c || c = ',' then acc.reverse :: splitSepAux rest [] true
    else splitSepAux rest (c :: acc) false
  | c :: rest, acc, true =>
    if pySpace c || c = ',' then splitSepAux rest acc true
    else splitSepAux rest [c] false

/-- `re.split(r"[,\s]+", s)` (rules.py line 36). -/
def pySplitSep (s : String) : List String :=
  (splitSepAux s.toList [] false).map (fun l => String.mk l)

/-! ## rules.py constants -/

def DEFAULT_PLACEMENT_SENDERS : List String :=
  ["helpdesk.cdc@vit.ac.in", "vitlions2026@vitbhopal.ac.in"]

def SUPER_KEYWORDS : List String :=
  ["interview", "interview scheduled", "shortlist", "report by", "join", "call letter"]

def URGENT_KEYWORDS : List String :=
  ["deadline", "apply by", "registration", "submission", "application deadline"]

def MID_KEYWORDS : List String :=
  ["placement drive", "opportunity", "internship", "job posting", "drive details"]

def TRASH_KEYWORDS : List String :=
  ["congratulations", "well done", "congrats", "has been placed"]

def MY_IDENTIFIERS : List String :=
  ["Kislay", "Kislay Tiwari", "22BSA10205", "kislaytiwari2022@vitbhopal.ac.in"]

/-- `normalize_email` (rules.py lines 20-24). -/
def normalize_email (addr : String) : String :=
  if addr == "" then "" else pyLower (pyStrip addr)

/-- Characters of the group captured by `re.search(r"<([^>]+)>", ...)`:
the characters before the first `>` of the rest, provided a `>` exists. -/
def takeToGt : List Char → Option (List Char)
  | [] => none
  | c :: rest => if c = '>' then some [] else (takeToGt rest).map (fun l => c :: l)

/-- Leftmost match of `<([^>]+)>`: scan for a `<` whose following first `>`
comes after at least one character; the captured group is what stands
between them. -/
def angleGroup : List Char → Option (List Char)
  | [] => none
  | c :: rest =>
    if c = '<' then
      match takeToGt rest with
      | some (x :: xs) => some (x :: xs)
      | _ => angleGroup rest
    else angleGroup rest

/-- `extract_email_from_header` (rules.py lines 26-40). -/
def extract_email_from_header (header_value : String) : String :=
  if header_value == "" then ""
  else
    match angleGroup header_value.toList with
    | some g => normalize_email (String.mk g)
    | none =>
      match (pySplitSep header_value).find? (fun t => t.toList.contains '@') with
      | some t => normalize_email t
      | none => normalize_email header_value

/-! ## rules.py: score_email (lines 54-107), decomposed signal by signal -/

/-- Python `xs or DEFAULT`: `None` and the empty list both fall back. -/
def listOr (o : Option (List String)) (d : List String) : List String :=
  match o with
  | some (k :: ks) => k :: ks
  | _ => d

/-- The lowercased super-tier keyword list after the `or`-fallback (line 63). -/
def super_list (sk : Option (List String)) : List String :=
  (listOr sk SUPER_KEYWORDS).map pyLower

/-- The lowercased urgent-tier keyword list after the `or`-fallback (line 64). -/
def urgent_list (uk : Option (List String)) : List String :=
  (listOr uk URGENT_KEYWORDS).map pyLower

/-- The lowercased mid-tier keyword list after the `or`-fallback (line 65). -/
def mid_list (mk : Option (List String)) : List String :=
  (listOr mk MID_KEYWORDS).map pyLower

/-- The lowercased trash-tier keyword list after the `or`-fallback (line 66). -/
def trash_list (tk : Option (List String)) : List String :=
  (listOr tk TRASH_KEYWORDS).map pyLower

/-- `any(k in text for k in ks)`. -/
def keyword_hit (ks : List String) (text : String) : Bool :=
  ks.any (fun k => containsSubstr text k)

/-- Sender allowlist test of lines 70-72 (`is None` fallback, then exact
match of each normalized allowlist entry against the extracted sender). -/
def sender_bonus_hit (placement_senders : Option (List String)) (sender_header : String) : Bool :=
  (match placement_senders with
   | none => DEFAULT_PLACEMENT_SENDERS
   | some l => l).any
    (fun ps => normalize_email ps == extract_email_from_header sender_header)

/-- To-field directness test of line 76 (`to_list and "kislaytiwari2022" in to_list.lower()`). -/
def to_direct_hit (to_list : String) : Bool :=
  !(to_list == "") && containsSubstr (pyLower to_list) "kislaytiwari2022"

/-- Mutually exclusive keyword-tier bonus (lines 80-85). -/
def tier_bonus (sk uk mk : Option (List String)) (text : String) : Rat :=
  if keyword_hit (super_list sk) text then 9/20
  else if keyword_hit (urgent_list uk) text then 1/4
  else if keyword_hit (mid_list mk) text then 3/20
  else 0

/-- Applied-company test of lines 92-96 (`if comp and comp.lower() in text`). -/
def company_hit (applied_companies : Option (List String)) (text : String) : Bool :=
  match applied_companies with
  | none => false
  | some cs => cs.any (fun c => !(c == "") && containsSubstr text (pyLower c))

/-- Personalization test of line 103 (hard-coded `MY_IDENTIFIERS`). -/
def personal_hit (text : String) : Bool :=
  MY_IDENTIFIERS.any (fun idf => containsSubstr text (pyLower idf))

/-- Final clamp of line 107: `max(0.0, min(1.0, score))`. -/
def clamp01 (x : Rat) : Rat := max 0 (min 1 x)

/-- `score_email` (rules.py lines 54-107). -/
def score_email (dateNear : String → Bool) (subject body sender_header to_list : String)
    (applied_companies placement_senders super_keywords urgent_keywords mid_keywords
      trash_keywords : Option (List String)) : Rat :=
  let text := pyLower (subject ++ " " ++ body)
  clamp01
    ((if sender_bonus_hit placement_senders sender_header then 3/10 else 0)
      + (if to_direct_hit to_list then 1/20 else 0)
      + tier_bonus super_keywords urgent_keywords mid_keywords text
      + (if dateNear text then 3/20 else 0)
      + (if company_hit applied_companies text then 7/20 else 0)
      - (if keyword_hit (trash_list trash_keywords) text then 3/5 else 0)
      + (if personal_hit text then 1/5 else 0))

/-- `classify_from_score` (rules.py lines 109-119).  Note the literal label
string of the top band is "super urgent", with a space. -/
def classify_from_score (score : Rat) : String :=
  if 17/20 ≤ score then "super urgent"
  else if 13/20 ≤ score then "urgent"
  else if 2/5 ≤ score then "mid"
  else if 3/20 ≤ score then "low"
  else "trash"

/-! ## rules.py: explain (lines 121-184) -/

/-- Result record of `explain` (its returned dict). -/
structure ExplainResult where
  score : Rat
  label : String
  reasons : List String
  sender_email : String
  is_placement_sender : Bool
deriving DecidableEq, Repr

/-- The fixed placement-indicator substrings of rules.py line 133. -/
def placement_keywords : List String :=
  ["placement", "placement office", "helpdesk", "cdc", "placementoffice"]

/-- The tier branch of the reasons pass (rules.py lines 160-165).  The raw
optional keyword lists are iterated directly — no `or`-default fallback and
no lowercasing — so a missing list raises `TypeError` exactly when the
corresponding `any(...)` is evaluated (`elif` laziness preserved). -/
def tierReasons (text : String) (sk uk mk : Option (List String)) :
    Except String (List String) :=
  match sk with
  | none => Except.error "TypeError: NoneType is not iterable"
  | some skl =>
    if keyword_hit skl text then Except.ok ["super keyword found"]
    else
      match uk with
      | none => Except.error "TypeError: NoneType is not iterable"
      | some ukl =>
        if keyword_hit ukl text then Except.ok ["urgent keyword found"]
        else
          match mk with
          | none => Except.error "TypeError: NoneType is not iterable"
          | some mkl =>
            Except.ok (if keyword_hit mkl text then ["mid keyword found"] else [])

/-- `explain` (rules.py lines 121-184). -/
def explain (dateNear : String → Bool) (subject body sender_header to_list : String)
    (applied_companies placement_senders super_keywords urgent_keywords mid_keywords
      trash_keywords : Option (List String)) : Except String ExplainResult :=
  let sender_email := extract_email_from_header sender_header
  let placement_senders_norm :=
    (listOr placement_senders DEFAULT_PLACEMENT_SENDERS).map normalize_email
  let sender_header_lower := pyLower sender_header
  let is_placement :=
    placement_senders_norm.contains sender_email
      || placement_keywords.any (fun kw => containsSubstr sender_header_lower kw)
  if !is_placement then
    Except.ok ⟨0, "others", ["sender not in placement-senders allowlist"], sender_email, false⟩
  else
    let s := score_email dateNear subject body sender_header to_list applied_companies
      placement_senders super_keywords urgent_keywords mid_keywords trash_keywords
    let label := classify_from_score s
    let text := pyLower (subject ++ " " ++ body)
    let r_sender :=
      if placement_senders_norm.any (fun ps => normalize_email ps == sender_email)
      then ["sender is placement cell"] else []
    match tierReasons text super_keywords urgent_keywords mid_keywords with
    | Except.error e => Except.error e
    | Except.ok r_tier =>
      let r_date := if dateNear text then ["date/time mentioned"] else []
      let r_comp :=
        match applied_companies with
        | none => []
        | some cs =>
          match cs.find? (fun c => !(c == "") && containsSubstr text (pyLower c)) with
          | some c => ["applied-company match: " ++ c]
          | none => []
      match trash_keywords with
      | none => Except.error "TypeError: NoneType is not iterable"
      | some tkl =>
        let r_trash :=
          if keyword_hit tkl text then ["congratulatory/trash keyword"] else []
        let r_pers :=
          if personal_hit text then ["personal identifier matched"] else []
        Except.ok ⟨s, label, r_sender ++ r_tier ++ r_date ++ r_comp ++ r_trash ++ r_pers,
          sender_email, true⟩

/-! ## llm_client.py -/

/-- The validated JSON verdict of `classify_with_llm` (llm_client.py).  The
seven required keys and the basic value types (`companies` a list, `deadline`
null-or-string) are enforced by this structure; the enum sanity checks are
`validate_llm_output` below. -/
structure Verdict where
  category : String
  urgency : String
  action_required : String
  deadline : Option String
  eligibility : String
  companies : List String
  reason : String
deriving DecidableEq, Repr

/-- `validate_llm_output` (llm_client.py lines 77-95), the enum checks that
remain once key presence and value types are carried by `Verdict`. -/
def validate_llm_output (v : Verdict) : Bool :=
  ["super_urgent", "urgent", "mid", "low", "trash"].contains v.urgency
    && ["interview", "job_posting", "follow_up", "congrats", "other"].contains v.category
    && ["none", "reply", "register", "fill_form", "confirm_attendance"].contains
        v.action_required

/-- The synthesized fallback verdict (llm_client.py lines 214 and 239). -/
def fallback_verdict : Verdict :=
  ⟨"other", "low", "none", none, "all", [], "llm-failed-to-parse"⟩

/-- The parsed-result cache `llm_cache/<message_id>.json`, as a map from
message id to stored verdict. -/
def Cache : Type := String → Option Verdict

/-- `_write_cache` (llm_client.py lines 73-75). -/
def writeCache (cache : Cache) (message_id : String) (v : Verdict) : Cache :=
  fun id => if id = message_id then some v else cache id

/-- Outcome of one provider round-trip plus the JSON-substring extraction of
llm_client.py lines 176-184 / 225-232: `Except.error` is a raised transport
error, `Except.ok none` a reply with no parseable JSON object (or a falsy
one), `Except.ok (some v)` a parsed, well-typed object `v` (whose enum
values `validate_llm_output` still has to check). -/
def CallOutcome : Type := Except Unit (Option Verdict)

/-- Did an outcome parse to a schema-valid verdict (`parsed and
validate_llm_output(parsed)`, line 187)? -/
def isValidParse (p : Option Verdict) : Bool :=
  match p with
  | some v => validate_llm_output v
  | none => false

/-- The repair stage of `classify_with_llm` (llm_client.py lines 204-241),
entered after the first reply failed to parse/validate.  Returns the parsed
verdict or fallback, the updated cache, and the total number of provider
calls made (the first call included). -/
def repair_stage (cache : Cache) (message_id : String) (repair_call : CallOutcome) :
    Option Verdict × Cache × Nat :=
  match repair_call with
  | Except.error _ =>
    (some fallback_verdict, writeCache cache message_id fallback_verdict, 2)
  | Except.ok parsed2 =>
    match parsed2 with
    | some v =>
      if validate_llm_output v then (some v, writeCache cache message_id v, 2)
      else (some fallback_verdict, writeCache cache message_id fallback_verdict, 2)
    | none => (some fallback_verdict, writeCache cache message_id fallback_verdict, 2)

/-- `classify_with_llm` (llm_client.py lines 148-241), as a function of the
cache state and of the outcomes the provider would give to the first and the
repair call.  Returns the result, the new cache state, and how many provider
calls were made. -/
def classify_with_llm (cache : Cache) (message_id : String)
    (first_call repair_call : CallOutcome) (force : Bool) :
    Option Verdict × Cache × Nat :=
  match force, cache message_id with
  | false, some cached => (some cached, cache, 0)
  | _, _ =>
    match first_call with
    | Except.error _ => (none, cache, 1)
    | Except.ok parsed =>
      match parsed with
      | some v =>
        if validate_llm_output v then (some v, writeCache cache message_id v, 1)
        else repair_stage cache message_id repair_call
      | none => repair_stage cache message_id repair_call

/-! ## process_and_classify.py: per-message reconciliation (lines 84-98) -/

/-- `severity_order` (process_and_classify.py line 93).  Note every key uses
an underscore, while `classify_from_score` spells its top label
"super urgent" with a space. -/
def severity_order : List (String × Nat) :=
  [("super_urgent", 4), ("urgent", 3), ("mid", 2), ("low", 1), ("trash", 0)]

/-- Python `dict.get(k, default)` over an association list. -/
def dict_get (d : List (String × Nat)) (k : String) (default : Nat) : Nat :=
  match List.lookup k d with
  | some v => v
  | none => default

/-- Python `k in dict`. -/
def dict_mem (d : List (String × Nat)) (k : String) : Bool :=
  (List.lookup k d).isSome

/-- The merge of the LLM verdict into the rule-based verdict
(process_and_classify.py lines 91-98): override on strictly greater severity,
else supplement; skipped when the classifier returned no verdict. -/
def reconcile (label : String) (reasons : List String) (llm_res : Option Verdict) :
    String × List String :=
  match llm_res with
  | none => (label, reasons)
  | some v =>
    if dict_mem severity_order v.urgency
        && decide (dict_get severity_order label 0 < dict_get severity_order v.urgency 0) then
      (v.urgency, reasons ++ ["llm_override: " ++ v.reason])
    else
      (label, reasons ++ ["llm_supplement: " ++ v.reason])

/-- The final per-message record fields the pipeline decides (label, score,
reasons) plus whether the LLM classifier was invoked for this message. -/
structure ProcessResult where
  label : String
  score : Rat
  reasons : List String
  llm_called : Bool
deriving DecidableEq, Repr

/-- One iteration of the message loop of `main`
(process_and_classify.py lines 65-98): run `explain`, and consult the LLM
classifier exactly when `is_placement_sender` holds and the rule score lies
in `0.45 <= score <= 0.85`; `llm_res` is the verdict the classifier would
return if consulted. -/
def processMessage (dateNear : String → Bool) (subject snippet sender_header to_list : String)
    (applied_companies placement_senders super_keywords urgent_keywords mid_keywords
      trash_keywords : Option (List String)) (llm_res : Option Verdict) :
    Except String ProcessResult :=
  match explain dateNear subject snippet sender_header to_list applied_companies
      placement_senders super_keywords urgent_keywords mid_keywords trash_keywords with
  | Except.error e => Except.error e
  | Except.ok ex =>
    if ex.is_placement_sender && decide ((9/20 : Rat) ≤ ex.score)
        && decide (ex.score ≤ (17/20 : Rat)) then
      let lr := reconcile ex.label ex.reasons llm_res
      Except.ok ⟨lr.1, ex.score, lr.2, true⟩
    else
      Except.ok ⟨ex.label, ex.score, ex.reasons, false⟩

/-! ## Claim-side definitions -/

/-- The severity ranking the spec assigns to the rule labels (trash=0, low=1,
mid=2, urgent=3, top band=4), keyed by the strings `classify_from_score`
actually returns. -/
def labelSeverity : String → Nat
  | "super urgent" => 4
  | "urgent" => 3
  | "mid" => 2
  | "low" => 1
  | _ => 0

/-- Modelled from the spec (§4.2 item 7): the scorer as the spec describes
it, with the personal-identifier list an externally configured parameter
instead of the hard-coded `MY_IDENTIFIERS`.  Identical to `score_email`
otherwise. -/
def score_email_spec_configured (identifiers : List String) (dateNear : String → Bool)
    (subject body sender_header to_list : String)
    (applied_companies placement_senders super_keywords urgent_keywords mid_keywords
      trash_keywords : Option (List String)) : Rat :=
  let text := pyLower (subject ++ " " ++ body)
  clamp01
    ((if sender_bonus_hit placement_senders sender_header then 3/10 else 0)
      + (if to_direct_hit to_list then 1/20 else 0)
      + tier_bonus super_keywords urgent_keywords mid_keywords text
      + (if dateNear text then 3/20 else 0)
      + (if company_hit applied_companies text then 7/20 else 0)
      - (if keyword_hit (trash_list trash_keywords) text then 3/5 else 0)
      + (if identifiers.any (fun idf => containsSubstr text (pyLower idf)) then 1/5 else 0))

/-- A call outcome that fails to yield a schema-valid verdict: a transport
error, or a reply whose parse does not validate. -/
def repair_call_fails (r : CallOutcome) : Bool :=
  match r with
  | Except.error _ => true
  | Except.ok p => !isValidParse p

/-- Decidable equality of `Except` results, for evaluating the embedded
functions at concrete inputs. -/
instance {ε α : Type} [DecidableEq ε] [DecidableEq α] : DecidableEq (Except ε α) := fun x y =>
  match x, y with
  | Except.error a, Except.error b => decidable_of_iff (a = b) (by simp)
  | Except.error _, Except.ok _ => Decidable.isFalse (by simp)
  | Except.ok _, Except.error _ => Decidable.isFalse (by simp)
  | Except.ok a, Except.ok b => decidable_of_iff (a = b) (by simp)

/-! ## Helper lemmas -/

theorem clamp01_nonneg (x : Rat) : 0 ≤ clamp01 x :=
  le_max_left 0 _

theorem clamp01_le_one (x : Rat) : clamp01 x ≤ 1 :=
  max_le (by norm_num) (min_le_left 1 x)

theorem clamp01_sub_lt (r d : Rat) (hr : 0 < r) (h1 : r - d < 1) (hd : 0 < d) :
    clamp01 (r - d) < clamp01 r := by
  unfold clamp01
  rcases le_or_lt 1 r with h | h
  · rw [min_eq_left h, min_eq_right (le_of_lt h1)]
    exact lt_of_lt_of_le (max_lt (by norm_num) h1) (le_max_right 0 1)
  · rw [min_eq_right (le_of_lt h), min_eq_right (by linarith : r - d ≤ 1),
      max_eq_right hr.le]
    exact max_lt hr (by linarith)

theorem labelSeverity_classify (s : Rat) :
    labelSeverity (classify_from_score s) =
      (if 17/20 ≤ s then 4 else if 13/20 ≤ s then 3 else if 2/5 ≤ s then 2
       else if 3/20 ≤ s then 1 else 0) := by
  unfold classify_from_score
  split_ifs <;> rfl

theorem clamp01_trash_mono (A B D C P : Rat)
    (hA : 0 ≤ A ∧ A ≤ 3/10) (hB : 0 ≤ B ∧ B ≤ 1/20) (hD : 0 ≤ D ∧ D ≤ 3/20)
    (hC : 0 ≤ C ∧ C ≤ 7/20) (hP : 0 ≤ P ∧ P ≤ 1/5) :
    clamp01 (A + B + 9/20 + D + C - 3/5 + P) < clamp01 (A + B + 9/20 + D + C + P) := by
  have h := clamp01_sub_lt (A + B + 9/20 + D + C + P) (3/5)
    (by linarith [hA.1, hB.1, hD.1, hC.1, hP.1])
    (by linarith [hA.2, hB.2, hD.2, hC.2, hP.2])
    (by norm_num)
  have e1 : A + B + 9/20 + D + C - 3/5 + P = A + B + 9/20 + D + C + P - 3/5 := by ring
  rw [e1]
  exact h

/-! ## Claims -/

/-- C2: for every subject, body, sender header, to-list, date matcher and
every configuration of company/sender/keyword lists, `score_email` returns a
value in the closed interval [0,1], even when the raw additive sum of the
signal contributions is negative or greater than 1. -/
theorem score_email_in_unit_interval (dn : String → Bool)
    (subject body sender_header to_list : String)
    (ac ps sk uk mk tk : Option (List String)) :
    0 ≤ score_email dn subject body sender_header to_list ac ps sk uk mk tk
      ∧ score_email dn subject body sender_header to_list ac ps sk uk mk tk ≤ 1 := by
  unfold score_email
  exact ⟨clamp01_nonneg _, clamp01_le_one _⟩

/-- C3 counterexample: at score 0.9 the mapper returns the literal label
"super urgent" (with a space), which is not among the enumerated values
the claim lists (it spells the top label "super_urgent"). -/
theorem classify_from_score_label_spelling :
    classify_from_score (9/10) = "super urgent"
      ∧ ¬ ("super urgent" ∈
            ["super_urgent", "urgent", "mid", "low", "trash", "others"]) := by
  constructor
  · with_unfolding_all decide
  · decide

/-- C3 amended: for every score, the mapper returns exactly one label,
determined by the bands s ≥ 0.85 → "super urgent" (spelled with a space,
not "super_urgent"), 0.65 ≤ s < 0.85 → "urgent", 0.40 ≤ s < 0.65 → "mid",
0.15 ≤ s < 0.40 → "low", s < 0.15 → "trash"; the result is always one of
those five values, and label severity is monotone non-decreasing in the
score. -/
theorem classify_from_score_bands (s t : Rat) :
    (17/20 ≤ s → classify_from_score s = "super urgent")
      ∧ (13/20 ≤ s ∧ s < 17/20 → classify_from_score s = "urgent")
      ∧ (2/5 ≤ s ∧ s < 13/20 → classify_from_score s = "mid")
      ∧ (3/20 ≤ s ∧ s < 2/5 → classify_from_score s = "low")
      ∧ (s < 3/20 → classify_from_score s = "trash")
      ∧ classify_from_score s ∈ ["super urgent", "urgent", "mid", "low", "trash"]
      ∧ (s ≤ t →
          labelSeverity (classify_from_score s) ≤ labelSeverity (classify_from_score t)) := by
  refine ⟨?_, ?_, ?_, ?_, ?_, ?_, ?_⟩
  · intro h
    unfold classify_from_score
    rw [if_pos h]
  · rintro ⟨h1, h2⟩
    unfold classify_from_score
    rw [if_neg (not_le.mpr h2), if_pos h1]
  · rintro ⟨h1, h2⟩
    unfold classify_from_score
    rw [if_neg (not_le.mpr (by linarith)), if_neg (not_le.mpr h2), if_pos h1]
  · rintro ⟨h1, h2⟩
    unfold classify_from_score
    rw [if_neg (not_le.mpr (by linarith)), if_neg (not_le.mpr (by linarith)),
      if_neg (not_le.mpr h2), if_pos h1]
  · intro h
    unfold classify_from_score
    rw [if_neg (not_le.mpr (by linarith)), if_neg (not_le.mpr (by linarith)),
      if_neg (not_le.mpr (by linarith)), if_neg (not_le.mpr h)]
  · unfold classify_from_score
    split_ifs <;> simp
  · intro hst
    rw [labelSeverity_classify, labelSeverity_classify]
    split_ifs <;> first | omega | linarith

/-- C3 witness: band membership and monotonicity at the concrete scores
0.9 ≤ 1. -/
theorem classify_from_score_bands_witness :
    classify_from_score (9/10) = "super urgent"
      ∧ labelSeverity (classify_from_score (9/10)) ≤ labelSeverity (classify_from_score 1) :=
  ⟨(classify_from_score_bands (9/10) 1).1 (by norm_num),
    (classify_from_score_bands (9/10) 1).2.2.2.2.2.2 (by norm_num)⟩

/-- C1: the reconciliation is NOT escalation-only.  A placement-sender
message scoring exactly 0.85 gets the rule label "super urgent", which the
severity table of the reconciliation keys as "super_urgent" and therefore
ranks at the default severity 0; an LLM verdict of urgency "low" (severity
1 > 0) then OVERRIDES it, downgrading the final label from the top band to
"low".  The end-to-end pipeline exhibits it at a concrete message. -/
theorem reconciliation_downgrades_super_urgent :
    processMessage (fun _ => false) "kislay: Devrev update" "" "helpdesk.cdc@vit.ac.in" ""
        (some ["Devrev"]) none (some SUPER_KEYWORDS) (some URGENT_KEYWORDS)
        (some MID_KEYWORDS) (some TRASH_KEYWORDS)
        (some ⟨"other", "low", "none", none, "all", [], "routine update"⟩)
      = Except.ok ⟨"low", 17/20,
          ["sender is placement cell", "applied-company match: Devrev",
            "personal identifier matched", "llm_override: routine update"], true⟩
      ∧ classify_from_score (17/20) = "super urgent"
      ∧ validate_llm_output ⟨"other", "low", "none", none, "all", [], "routine update"⟩ = true
      ∧ labelSeverity "low" < labelSeverity "super urgent" := by
  refine ⟨?_, ?_, ?_, ?_⟩
  · with_unfolding_all decide
  · with_unfolding_all decide
  · decide
  · decide

/-- C5: the reasons pass of `explain` iterates the raw optional keyword
lists.  For a placement-sender message with the keyword tiers not supplied
it raises (models Python `TypeError: NoneType is not iterable`) instead of
falling back to the defaults; with empty tier lists it returns score 0.75 —
which includes the 0.45 super-tier bonus contributed by the built-in default
keywords via the score pass's `or`-fallback — while the reasons list
contains no "super keyword found" entry, so reasons and score are not
consistent. -/
theorem explain_reason_pass_inconsistency :
    explain (fun _ => false) "interview" "" "helpdesk.cdc@vit.ac.in" ""
        none none none none none none
      = Except.error "TypeError: NoneType is not iterable"
      ∧ explain (fun _ => false) "interview" "" "helpdesk.cdc@vit.ac.in" ""
          none none (some []) (some []) (some []) (some [])
        = Except.ok ⟨3/4, "urgent", ["sender is placement cell"],
            "helpdesk.cdc@vit.ac.in", true⟩
      ∧ tier_bonus (some []) (some []) (some []) (pyLower ("interview" ++ " " ++ ""))
          = 9/20 := by
  refine ⟨?_, ?_, ?_⟩
  · decide
  · with_unfolding_all decide
  · with_unfolding_all decide

/-- C9 counterexample: with the configured personal-identifier list
["zzz"], the claim predicts no personalization bonus for the message
"kislay" (no configured identifier matches), yet `score_email` returns 0.2:
the bonus is driven by the hard-coded `MY_IDENTIFIERS`, not the
configuration.  `score_email_spec_configured` is the claim's reading. -/
theorem personalization_ignores_config :
    score_email (fun _ => false) "kislay" "" "" "" none none none none none none = 1/5
      ∧ (["zzz"].any fun idf =>
          containsSubstr (pyLower ("kislay" ++ " " ++ "")) (pyLower idf)) = false
      ∧ score_email_spec_configured ["zzz"] (fun _ => false) "kislay" "" "" ""
          none none none none none none = 0 := by
  refine ⟨?_, ?_, ?_⟩
  · with_unfolding_all decide
  · decide
  · with_unfolding_all decide

/-- C9 amended: the personalization bonus is governed by the hard-coded
`MY_IDENTIFIERS` module constant, not by externally supplied configuration:
for every input, `score_email` coincides with the spec's parameterized
scorer instantiated at exactly `MY_IDENTIFIERS` (+0.20 exactly when some
identifier of that list matches the combined text case-insensitively). -/
theorem score_email_personalization_hardcoded (dn : String → Bool)
    (subject body sender_header to_list : String)
    (ac ps sk uk mk tk : Option (List String)) :
    score_email dn subject body sender_header to_list ac ps sk uk mk tk
      = score_email_spec_configured MY_IDENTIFIERS dn subject body sender_header to_list
          ac ps sk uk mk tk :=
  rfl

/-- C4: for every message whose extracted sender address is not in the
normalized allowlist and whose sender header contains none of the
placement-indicator substrings, `explain` returns label "others", score 0,
and the single reason noting the sender is not on the placement allowlist,
regardless of subject/body content — and the pipeline never consults the
LLM for that message. -/
theorem explain_non_placement_short_circuit (dn : String → Bool)
    (subject body sender_header to_list : String)
    (ac ps sk uk mk tk : Option (List String)) (llm : Option Verdict)
    (h1 : ((listOr ps DEFAULT_PLACEMENT_SENDERS).map normalize_email).contains
        (extract_email_from_header sender_header) = false)
    (h2 : placement_keywords.any
        (fun kw => containsSubstr (pyLower sender_header) kw) = false) :
    explain dn subject body sender_header to_list ac ps sk uk mk tk
      = Except.ok ⟨0, "others", ["sender not in placement-senders allowlist"],
          extract_email_from_header sender_header, false⟩
    ∧ processMessage dn subject body sender_header to_list ac ps sk uk mk tk llm
      = Except.ok ⟨"others", 0, ["sender not in placement-senders allowlist"], false⟩ := by
  have hexp : explain dn subject body sender_header to_list ac ps sk uk mk tk
      = Except.ok ⟨0, "others", ["sender not in placement-senders allowlist"],
          extract_email_from_header sender_header, false⟩ := by
    simp only [explain]
    rw [h1, h2]
    simp
  refine ⟨hexp, ?_⟩
  simp [processMessage, hexp]

/-- C4 witness: a concrete non-placement sender with urgent-looking
subject/body still short-circuits to "others"/0 with no LLM call. -/
theorem explain_non_placement_short_circuit_witness :
    explain (fun _ => false) "URGENT interview deadline" "body" "bob@example.com" ""
        none none none none none none
      = Except.ok ⟨0, "others", ["sender not in placement-senders allowlist"],
          extract_email_from_header "bob@example.com", false⟩
    ∧ processMessage (fun _ => false) "URGENT interview deadline" "body" "bob@example.com" ""
        none none none none none none none
      = Except.ok ⟨"others", 0, ["sender not in placement-senders allowlist"], false⟩ :=
  explain_non_placement_short_circuit (fun _ => false) "URGENT interview deadline" "body"
    "bob@example.com" "" none none none none none none none (by decide) (by decide)

/-- C6: for every message that `explain` classifies, the LLM classifier is
consulted if and only if `is_placement_sender` is true and the rule-based
score lies in the ambiguous band [0.45, 0.85] inclusive; when it is not
consulted, the rule-based label, score and reasons are final. -/
theorem llm_gating_iff (dn : String → Bool) (subject snippet sender_header to_list : String)
    (ac ps sk uk mk tk : Option (List String)) (llm : Option Verdict) (ex : ExplainResult)
    (h : explain dn subject snippet sender_header to_list ac ps sk uk mk tk = Except.ok ex) :
    ∃ r, processMessage dn subject snippet sender_header to_list ac ps sk uk mk tk llm
        = Except.ok r
      ∧ (r.llm_called = true ↔
          (ex.is_placement_sender = true ∧ (9/20 : Rat) ≤ ex.score ∧ ex.score ≤ 17/20))
      ∧ (r.llm_called = false →
          r.label = ex.label ∧ r.score = ex.score ∧ r.reasons = ex.reasons) := by
  by_cases hc : (ex.is_placement_sender && decide ((9/20 : Rat) ≤ ex.score)
      && decide (ex.score ≤ (17/20 : Rat))) = true
  · refine ⟨⟨(reconcile ex.label ex.reasons llm).1, ex.score,
      (reconcile ex.label ex.reasons llm).2, true⟩, ?_, ?_, ?_⟩
    · simp only [processMessage, h]
      rw [if_pos hc]
    · simp only [Bool.and_eq_true, decide_eq_true_eq] at hc
      simp [hc.1.1, hc.1.2, hc.2]
    · simp
  · refine ⟨⟨ex.label, ex.score, ex.reasons, false⟩, ?_, ?_, ?_⟩
    · simp only [processMessage, h]
      rw [if_neg hc]
    · simp only [Bool.false_eq_true, false_iff]
      intro hrhs
      exact hc (by simp [Bool.and_eq_true, decide_eq_true_eq, hrhs.1, hrhs.2.1, hrhs.2.2])
    · intro
      exact ⟨rfl, rfl, rfl⟩

/-- C6 witness: at a concrete non-placement message the gate evaluates to
false and the rule-based result is final. -/
theorem llm_gating_iff_witness :
    ∃ r, processMessage (fun _ => false) "a" "" "bob@example.com" "" none none none none none
        none none = Except.ok r
      ∧ (r.llm_called = true ↔
          ((false : Bool) = true ∧ (9/20 : Rat) ≤ 0 ∧ (0 : Rat) ≤ 17/20))
      ∧ (r.llm_called = false →
          r.label = "others" ∧ r.score = 0
            ∧ r.reasons = ["sender not in placement-senders allowlist"]) :=
  llm_gating_iff (fun _ => false) "a" "" "bob@example.com" "" none none none none none none
    none ⟨0, "others", ["sender not in placement-senders allowlist"],
      extract_email_from_header "bob@example.com", false⟩ rfl

/-- C7: when the first provider reply fails schema validation and the repair
attempt fails too (transport error or schema violation), `classify_with_llm`
returns the synthesized fallback verdict, writes it to the cache under the
message id, and every subsequent non-forced call for that id returns the
cached fallback with zero provider calls. -/
theorem llm_fallback_cached (cache : Cache) (message_id : String) (p : Option Verdict)
    (repair_call : CallOutcome) (force : Bool)
    (hmiss : force = true ∨ cache message_id = none)
    (hfirst : isValidParse p = false)
    (hrep : repair_call_fails repair_call = true) :
    classify_with_llm cache message_id (Except.ok p) repair_call force
      = (some fallback_verdict, writeCache cache message_id fallback_verdict, 2)
    ∧ ∀ first2 repair2,
        classify_with_llm (writeCache cache message_id fallback_verdict) message_id
            first2 repair2 false
          = (some fallback_verdict, writeCache cache message_id fallback_verdict, 0) := by
  have hrepair : repair_stage cache message_id repair_call
      = (some fallback_verdict, writeCache cache message_id fallback_verdict, 2) := by
    cases repair_call with
    | error e => rfl
    | ok p2 =>
      cases p2 with
      | none => rfl
      | some v =>
        simp only [repair_call_fails, isValidParse, Bool.not_eq_true'] at hrep
        simp [repair_stage, hrep]
  constructor
  · cases p with
    | none =>
      rcases hmiss with hf | hm
      · subst hf
        cases hc : cache message_id <;> simp [classify_with_llm, hc, hrepair]
      · cases force <;> simp [classify_with_llm, hm, hrepair]
    | some v =>
      have hv : validate_llm_output v = false := by
        simpa [isValidParse] using hfirst
      rcases hmiss with hf | hm
      · subst hf
        cases hc : cache message_id <;> simp [classify_with_llm, hc, hv, hrepair]
      · cases force <;> simp [classify_with_llm, hm, hv, hrepair]
  · intro first2 repair2
    simp [classify_with_llm, writeCache]

/-- C7 witness: an unparseable first reply and an erroring repair call on an
empty cache produce the cached fallback, and a second non-forced call
returns it with zero provider calls. -/
theorem llm_fallback_cached_witness :
    classify_with_llm (fun _ => none) "m1" (Except.ok none) (Except.error ()) false
      = (some fallback_verdict, writeCache (fun _ => none) "m1" fallback_verdict, 2)
    ∧ ∀ first2 repair2,
        classify_with_llm (writeCache (fun _ => none) "m1" fallback_verdict) "m1"
            first2 repair2 false
          = (some fallback_verdict, writeCache (fun _ => none) "m1" fallback_verdict, 0) :=
  llm_fallback_cached (fun _ => none) "m1" none (Except.error ()) false (Or.inr rfl) rfl rfl

/-- C10: if the first provider call raises, `classify_with_llm` returns no
verdict and leaves the cache unchanged, so any later call for the same
(uncached) message id performs at least one fresh provider call — unlike
parse/repair failures, which are memoized via the cached fallback. -/
theorem llm_first_error_not_cached (cache : Cache) (message_id : String)
    (repair_call : CallOutcome) (force : Bool)
    (hmiss : cache message_id = none) :
    classify_with_llm cache message_id (Except.error ()) repair_call force = (none, cache, 1)
    ∧ ∀ first2 repair2 force2,
        1 ≤ (classify_with_llm cache message_id first2 repair2 force2).2.2 := by
  have h2 : ∀ r, (repair_stage cache message_id r).2.2 = 2 := by
    intro r
    cases r with
    | error e => rfl
    | ok p2 =>
      cases p2 with
      | none => rfl
      | some v =>
        simp only [repair_stage]
        split <;> rfl
  constructor
  · cases force <;> simp [classify_with_llm, hmiss]
  · intro first2 repair2 force2
    cases force2 <;>
    · cases first2 with
      | error e => simp [classify_with_llm, hmiss]
      | ok p =>
        cases p with
        | none => simp [classify_with_llm, hmiss, h2]
        | some v =>
          by_cases hval : validate_llm_output v = true
          · simp [classify_with_llm, hmiss, hval]
          · simp only [Bool.not_eq_true] at hval
            simp [classify_with_llm, hmiss, hval, h2]

/-- C10 witness: a transport failure on an empty cache returns no verdict,
the cache is unchanged, and later calls still reach the provider. -/
theorem llm_first_error_not_cached_witness :
    classify_with_llm (fun _ => none) "m1" (Except.error ()) (Except.ok none) false
      = (none, (fun _ => none : Cache), 1)
    ∧ ∀ first2 repair2 force2,
        1 ≤ (classify_with_llm (fun _ => none : Cache) "m1" first2 repair2 force2).2.2 :=
  llm_first_error_not_cached (fun _ => none) "m1" (Except.ok none) false rfl

/-- C8: a message matching both a super-tier and a trash-tier keyword scores
strictly lower than the same message with the trash keyword removed
(modelled as: the two texts agree on every other signal, both match a super
keyword, and only the first matches a trash keyword); the −0.60 penalty
survives the clamp against the +0.45 bonus. -/
theorem trash_keyword_dominance (dn : String → Bool) (sender_header to_list : String)
    (ac ps sk uk mk tk : Option (List String)) (subject1 body1 subject2 body2 : String)
    (hsuper1 : keyword_hit (super_list sk) (pyLower (subject1 ++ " " ++ body1)) = true)
    (hsuper2 : keyword_hit (super_list sk) (pyLower (subject2 ++ " " ++ body2)) = true)
    (htrash1 : keyword_hit (trash_list tk) (pyLower (subject1 ++ " " ++ body1)) = true)
    (htrash2 : keyword_hit (trash_list tk) (pyLower (subject2 ++ " " ++ body2)) = false)
    (hdate : dn (pyLower (subject1 ++ " " ++ body1)) = dn (pyLower (subject2 ++ " " ++ body2)))
    (hcomp : company_hit ac (pyLower (subject1 ++ " " ++ body1))
      = company_hit ac (pyLower (subject2 ++ " " ++ body2)))
    (hpers : personal_hit (pyLower (subject1 ++ " " ++ body1))
      = personal_hit (pyLower (subject2 ++ " " ++ body2))) :
    score_email dn subject1 body1 sender_header to_list ac ps sk uk mk tk
      < score_email dn subject2 body2 sender_header to_list ac ps sk uk mk tk := by
  simp only [score_email, tier_bonus, hsuper1, hsuper2, htrash1, htrash2, hdate, hcomp, hpers,
    if_true, Bool.false_eq_true, if_false, sub_zero]
  refine clamp01_trash_mono _ _ _ _ _ ⟨?_, ?_⟩ ⟨?_, ?_⟩ ⟨?_, ?_⟩ ⟨?_, ?_⟩ ⟨?_, ?_⟩ <;>
    split <;> norm_num

/-- C8 witness: "interview congratulations" scores strictly below
"interview" from the same sender. -/
theorem trash_keyword_dominance_witness :
    score_email (fun _ => false) "interview congratulations" "" "x" "" none none none none
        none none
      < score_email (fun _ => false) "interview" "" "x" "" none none none none none none :=
  trash_keyword_dominance (fun _ => false) "x" "" none none none none none none
    "interview congratulations" "" "interview" "" (by decide) (by decide) (by decide)
    (by decide) rfl rfl (by decide)

end MailPrioritiser
